import Mathlib

/-!
# Verification of the Voice.ai TTS SDK transport layer

Shallow embedding of `voice-ai-tts-sdk.js`: the buffered transport
(`_request`), the streaming transport (`_streamRequest`), the derived
file-writing operations, and the typed error taxonomy.  JavaScript
runtime behaviour (truthiness, `JSON.parse`, member access on `null`,
`String(...)` coercion, default parameters of `Error` subclasses) is
modelled explicitly; `JSON.parse` itself is kept abstract as a
function argument `parse : String → Option Json` since the SDK only
depends on whether parsing succeeds and on the fields of the result.
-/

/-- A JSON value as produced by a successful `JSON.parse`. -/
inductive Json where
  | null : Json
  | bool : Bool → Json
  | num : ℚ → Json
  | str : String → Json
  | arr : List Json → Json
  | obj : List (String × Json) → Json

/-- JavaScript member access `v.k`.  Accessing a member of `null`
throws a `TypeError` (modelled as `.error ()`); on every other
non-object value the result is `undefined` (modelled as `.ok none`);
on an object it is the field's value, or `undefined` when absent. -/
def jsGetField : Json → String → Except Unit (Option Json)
  | Json.null, _ => Except.error ()
  | Json.obj fields, k => Except.ok (fields.lookup k)
  | _, _ => Except.ok none

/-- JavaScript `String(v)` coercion for JSON values.  Arrays stringify
as their elements joined by commas, with `null` elements rendered
empty; objects render as the standard object placeholder. -/
def jsToString : Json → String
  | Json.null => "null"
  | Json.bool b => if b then "true" else "false"
  | Json.num n => if n.den = 1 then toString n.num else toString n
  | Json.str s => s
  | Json.obj _ => "[object Object]"
  | Json.arr xs => jsArrToString xs
where
  /-- Array elements joined by commas. -/
  jsArrToString : List Json → String
    | [] => ""
    | [x] => jsArrElem x
    | x :: y :: xs => jsArrElem x ++ "," ++ jsArrToString (y :: xs)
  /-- A `null` array element stringifies as the empty string. -/
  jsArrElem : Json → String
    | Json.null => ""
    | j => jsToString j

/-- JavaScript `v ?? null` collapsing: an absent (`undefined`) optional
JSON value becomes `null`, matching the `details = null` default of the
error base class (a default parameter fires exactly on `undefined`). -/
def jsOrNull : Option Json → Json := fun o => o.getD Json.null

/-- Split a character list at the first occurrence of a separator,
returning the parts before and after it; `none` when the separator
does not occur. -/
def splitFirstInfix (sep : List Char) : List Char → Option (List Char × List Char)
  | [] => none
  | c :: cs =>
    if sep.isPrefixOf (c :: cs) then some ([], (c :: cs).drop sep.length)
    else
      match splitFirstInfix sep cs with
      | some pq => some (c :: pq.1, pq.2)
      | none => none

/-- ASCII lower-casing of one character. -/
def lowerChar (c : Char) : Char :=
  if 65 ≤ c.toNat ∧ c.toNat ≤ 90 then Char.ofNat (c.toNat + 32) else c

/-- ASCII lower-casing of a string. -/
def lowerStr (s : String) : String := String.mk (s.toList.map lowerChar)

/-- Numeric value of a digit string. -/
def digitsToNat (cs : List Char) : Nat :=
  cs.foldl (fun acc c => acc * 10 + (c.toNat - 48)) 0

/-- JavaScript `s.startsWith(p)`. -/
def strStartsWith (s p : String) : Bool := p.toList.isPrefixOf s.toList

/-- Error kinds of the documented taxonomy. -/
inductive ErrorKind where
  | AUTHENTICATION
  | PAYMENT_REQUIRED
  | NOT_FOUND
  | VALIDATION
  | RATE_LIMIT
  | GENERIC
  | TIMEOUT
deriving DecidableEq, Repr

/-- The `code` carried by a `VoiceAIError`: a numeric HTTP status, or
the symbolic string code used for timeouts. -/
inductive ErrCode where
  | num : Nat → ErrCode
  | sym : String → ErrCode
deriving DecidableEq, Repr

/-- A thrown/rejected SDK error value: the class name, the message
(after JavaScript `Error` stringification), the `code` field and the
`details` field of the `VoiceAIError` hierarchy. -/
structure VError where
  name : String
  message : String
  code : ErrCode
  details : Json

/-- Message of `new Error(m)` when the constructor has no default:
`undefined` gives the empty message, any other value is stringified. -/
def errMsgNoDefault : Option Json → String
  | none => ""
  | some j => jsToString j

/-- Message of an `Error` subclass constructor with a default message
parameter: the default fires exactly when the argument is `undefined`. -/
def errMsgWithDefault (m : Option Json) (dflt : String) : String :=
  match m with
  | none => dflt
  | some j => jsToString j

/-- Base class `VoiceAIError(message, code, details = null)`. -/
def VoiceAIErrorMk (m : Option Json) (code : ErrCode) (d : Option Json) : VError :=
  { name := "VoiceAIError", message := errMsgNoDefault m, code := code, details := jsOrNull d }

/-- Subclass `AuthenticationError(message = 'Invalid or missing API key')`, code 401. -/
def AuthenticationErrorMk (m : Option Json) : VError :=
  { name := "AuthenticationError", message := errMsgWithDefault m "Invalid or missing API key"
    code := ErrCode.num 401, details := Json.null }

/-- Subclass `PaymentRequiredError(message = 'Insufficient credits or voice slot limit reached')`, code 402. -/
def PaymentRequiredErrorMk (m : Option Json) : VError :=
  { name := "PaymentRequiredError"
    message := errMsgWithDefault m "Insufficient credits or voice slot limit reached"
    code := ErrCode.num 402, details := Json.null }

/-- Subclass `NotFoundError(message = 'Resource not found')`, code 404. -/
def NotFoundErrorMk (m : Option Json) : VError :=
  { name := "NotFoundError", message := errMsgWithDefault m "Resource not found"
    code := ErrCode.num 404, details := Json.null }

/-- Subclass `ValidationError(message, details)`, code 422, no message default. -/
def ValidationErrorMk (m : Option Json) (d : Option Json) : VError :=
  { name := "ValidationError", message := errMsgNoDefault m
    code := ErrCode.num 422, details := jsOrNull d }

/-- Subclass `RateLimitError(message = 'Rate limit exceeded')`, code 429. -/
def RateLimitErrorMk (m : Option Json) : VError :=
  { name := "RateLimitError", message := errMsgWithDefault m "Rate limit exceeded"
    code := ErrCode.num 429, details := Json.null }

/-- The taxonomy kind of an error value: subclasses map to their named
kinds; a base-class error is TIMEOUT exactly when it carries the
symbolic TIMEOUT code, and GENERIC otherwise. -/
def VError.kind (e : VError) : ErrorKind :=
  if e.name = "AuthenticationError" then ErrorKind.AUTHENTICATION
  else if e.name = "PaymentRequiredError" then ErrorKind.PAYMENT_REQUIRED
  else if e.name = "NotFoundError" then ErrorKind.NOT_FOUND
  else if e.name = "ValidationError" then ErrorKind.VALIDATION
  else if e.name = "RateLimitError" then ErrorKind.RATE_LIMIT
  else if e.code = ErrCode.sym "TIMEOUT" then ErrorKind.TIMEOUT
  else ErrorKind.GENERIC

/-- A fully buffered HTTP response as seen by the `res.on('end')`
handler of `_request`: status code, the optional `content-type` header,
and the accumulated body both as raw bytes (`Buffer.concat(chunks)`)
and as text (`buffer.toString()`). -/
structure HttpResponse where
  statusCode : Nat
  contentType : Option String
  bodyBytes : List Nat
  bodyText : String
deriving DecidableEq, Repr

/-- A successful buffered payload: raw bytes, a parsed JSON structure,
or the raw body text when JSON parsing fails. -/
inductive Outcome where
  | bytes : List Nat → Outcome
  | json : Json → Outcome
  | text : String → Outcome

/-- A settled buffered request: the promise resolves with a payload,
rejects with a typed error, or the end-handler throws an uncaught
`TypeError` (leaving the promise forever pending). -/
inductive ReqResult where
  | resolve : Outcome → ReqResult
  | reject : VError → ReqResult
  | crash : String → ReqResult

/-- The `switch (res.statusCode)` dispatch of the `_request` error
branch, applied to the already-read `errorData.error` and
`errorData.detail` members: the five documented statuses construct
their dedicated subclasses and every other status constructs a
base-class error carrying the literal status code and the detail. -/
def classifyStatus (status : Nat) (errF detF : Option Json) : VError :=
  if status = 401 then AuthenticationErrorMk errF
  else if status = 402 then PaymentRequiredErrorMk errF
  else if status = 404 then NotFoundErrorMk errF
  else if status = 422 then ValidationErrorMk errF detF
  else if status = 429 then RateLimitErrorMk errF
  else VoiceAIErrorMk errF (ErrCode.num status) detF

/-- The error branch of `_request` (status ≥ 400): parse the buffered
body as JSON, falling back to an object carrying the raw body text (or
the literal Unknown-error placeholder when that text is empty) as its
`error` member, then dispatch on the status code.  Every switch branch
reads `errorData.error` (and the 422/default branches read
`errorData.detail`), so a body that parses to JSON `null` throws a
`TypeError` instead of rejecting. -/
def handleErrorResponse (parse : String → Option Json) (status : Nat) (bodyText : String) :
    ReqResult :=
  let errorData : Json :=
    match parse bodyText with
    | some j => j
    | none => Json.obj [("error", Json.str (if bodyText = "" then "Unknown error" else bodyText))]
  match jsGetField errorData "error", jsGetField errorData "detail" with
  | Except.ok errF, Except.ok detF => ReqResult.reject (classifyStatus status errF detF)
  | _, _ => ReqResult.crash "TypeError: cannot read properties of null"

/-- The `res.on('end')` handler of `_request`: status ≥ 400 goes to the
error branch; otherwise an `audio/*` content type or the caller's
binary flag yields the raw byte buffer with no JSON parsing, and any
other response is JSON-parsed with a raw-text fallback. -/
def handleBufferedResponse (parse : String → Option Json) (binary : Bool)
    (resp : HttpResponse) : ReqResult :=
  if 400 ≤ resp.statusCode then
    handleErrorResponse parse resp.statusCode resp.bodyText
  else
    let contentType := resp.contentType.getD ""
    if strStartsWith contentType "audio/" || binary then
      ReqResult.resolve (Outcome.bytes resp.bodyBytes)
    else
      match parse resp.bodyText with
      | some j => ReqResult.resolve (Outcome.json j)
      | none => ReqResult.resolve (Outcome.text resp.bodyText)

/-- A JavaScript scalar passed as a query-parameter value, including
the absent (`undefined`) and `null` cases the serializer must skip. -/
inductive JsValue where
  | undef : JsValue
  | null : JsValue
  | str : String → JsValue
  | num : Int → JsValue
deriving DecidableEq, Repr

/-- String coercion applied by `URLSearchParams.append` to a value. -/
def JsValue.asString : JsValue → String
  | JsValue.undef => "undefined"
  | JsValue.null => "null"
  | JsValue.str s => s
  | JsValue.num n => toString n

/-- The query-parameter loop of `_request`: for each entry in order,
append `(key, String(value))` to the URL's search parameters unless the
value is `undefined` or `null`. -/
def serializeParams (ps : List (String × JsValue)) : List (String × String) :=
  ps.foldl
    (fun acc kv =>
      if kv.2 ≠ JsValue.undef ∧ kv.2 ≠ JsValue.null then acc ++ [(kv.1, kv.2.asString)]
      else acc)
    []

/-- Components of a WHATWG URL relevant to the SDK. -/
structure UrlParts where
  protocol : String
  hostname : String
  portStr : String
  pathname : String
deriving DecidableEq, Repr

/-- A valid URL scheme: a letter followed by letters, digits, plus,
minus or dot. -/
def schemeValid (s : String) : Bool :=
  match s.toList with
  | [] => false
  | c :: cs => c.isAlpha && cs.all (fun d => d.isAlphanum || d = '+' || d = '-' || d = '.')

/-- Environment model of `new URL(path, base)` for the absolute,
query-free path strings the SDK passes: the result takes scheme,
lower-cased host and (default-elided) port from the base and the given
string as its pathname; `none` models the `TypeError` the constructor
throws on a malformed base (no scheme separator, empty host, repeated
colons or a non-numeric port in the authority). -/
def resolveUrl (path : String) (base : String) : Option UrlParts :=
  match splitFirstInfix (':' :: '/' :: '/' :: []) base.toList with
  | none => none
  | some sr =>
    let scheme := String.mk sr.1
    if schemeValid scheme then
      let authority := sr.2.takeWhile (fun c => c ≠ '/' ∧ c ≠ '?' ∧ c ≠ '#')
      let schemeL := lowerStr scheme
      match splitFirstInfix [':'] authority with
      | none =>
        if authority = [] then none
        else some ⟨schemeL ++ ":", lowerStr (String.mk authority), "", path⟩
      | some hp =>
        if hp.1 = [] then none
        else if hp.2.contains ':' then none
        else if hp.2 = [] then some ⟨schemeL ++ ":", lowerStr (String.mk hp.1), "", path⟩
        else if hp.2.all Char.isDigit then
          let portStr := String.mk hp.2
          let elided :=
            (schemeL = "https" ∧ portStr = "443") ∨ (schemeL = "http" ∧ portStr = "80")
          some ⟨schemeL ++ ":", lowerStr (String.mk hp.1), if elided then "" else portStr, path⟩
        else none
    else none

/-- Constant `BASE_URL`: the official production endpoint. -/
def BASE_URL : String := "https://dev.voice.ai"

/-- Constant `API_VERSION`. -/
def API_VERSION : String := "v1"

/-- Immutable client configuration stored by the `VoiceAI` constructor. -/
structure Client where
  apiKey : String
  baseUrl : String
  timeout : Nat
deriving DecidableEq, Repr

/-- JavaScript falsiness of an optional string argument: absent
(`undefined`) or the empty string. -/
def jsFalsyStr (o : Option String) : Bool := o.getD "" = ""

/-- The `VoiceAI` constructor: a falsy API key throws an
`AuthenticationError` before anything else; otherwise the
configuration is stored, with falsy `baseUrl` defaulting to `BASE_URL`
and falsy (absent or zero) `timeout` defaulting to 60000 ms. -/
def VoiceAI.mkClient (apiKey : Option String) (baseUrl : Option String)
    (timeoutOpt : Option Nat) : Except VError Client :=
  if jsFalsyStr apiKey then
    Except.error (AuthenticationErrorMk (some (Json.str "API key is required")))
  else
    Except.ok
      { apiKey := apiKey.getD ""
        baseUrl := if jsFalsyStr baseUrl then BASE_URL else baseUrl.getD ""
        timeout :=
          match timeoutOpt with
          | none => 60000
          | some 0 => 60000
          | some t => t }

/-- Hexadecimal digit character, uppercase. -/
def hexDigit (n : Nat) : Char :=
  if n < 10 then Char.ofNat (48 + n) else Char.ofNat (55 + n)

/-- Percent-encoding of one byte. -/
def percentByte (b : Nat) : String :=
  String.mk ['%', hexDigit (b / 16 % 16), hexDigit (b % 16)]

/-- UTF-8 bytes of a character. -/
def utf8Bytes (c : Char) : List Nat :=
  let n := c.toNat
  if n < 0x80 then [n]
  else if n < 0x800 then [0xC0 + n / 64, 0x80 + n % 64]
  else if n < 0x10000 then [0xE0 + n / 4096, 0x80 + n / 64 % 64, 0x80 + n % 64]
  else [0xF0 + n / 262144, 0x80 + n / 4096 % 64, 0x80 + n / 64 % 64, 0x80 + n % 64]

/-- Environment model of WHATWG form-urlencoding as used by
`URLSearchParams` serialization: alphanumerics and `*`, `-`, `.`, `_`
pass through, space becomes `+`, everything else percent-encodes its
UTF-8 bytes. -/
def formEncodeChar (c : Char) : String :=
  if c.isAlphanum || c = '*' || c = '-' || c = '.' || c = '_' then String.singleton c
  else if c = ' ' then "+"
  else String.join ((utf8Bytes c).map percentByte)

/-- Form-urlencoding of a whole string. -/
def formEncode (s : String) : String := String.join (s.toList.map formEncodeChar)

/-- The `url.search` string: empty when no parameters were appended,
otherwise a question mark followed by the ampersand-joined encoded
key-value pairs. -/
def renderSearch (qp : List (String × String)) : String :=
  if qp = [] then ""
  else "?" ++ String.intercalate "&" (qp.map (fun kv => formEncode kv.1 ++ "=" ++ formEncode kv.2))

/-- The options object handed to `https.request`; `timeoutMs` is the
optional `timeout` entry (the streaming transport sets none). -/
structure NodeRequestOptions where
  method : String
  hostname : String
  path : String
  port : Nat
  headers : List (String × String)
  timeoutMs : Option Nat
deriving DecidableEq, Repr

/-- Outcome of the synchronous part of a transport call: a `TypeError`
from the URL constructor, a typed SDK error thrown before any network
I/O, or the options object handed to `https.request` (the network
stage). -/
inductive ReqPhase where
  | urlThrow : ReqPhase
  | thrown : VError → ReqPhase
  | sent : NodeRequestOptions → ReqPhase

/-- JavaScript truthiness of a JSON value. -/
def jsTruthy : Json → Bool
  | Json.null => false
  | Json.bool b => b
  | Json.num n => n ≠ 0
  | Json.str s => s ≠ ""
  | Json.arr _ => true
  | Json.obj _ => true

/-- Whether `_request` adds a JSON content-type header: the body is
truthy, of object type, and not flagged as form data. -/
def bodyNeedsJsonHeader (body : Option Json) (isFormData : Bool) : Bool :=
  match body with
  | none => false
  | some b => jsTruthy b && (match b with
      | Json.arr _ => true
      | Json.obj _ => true
      | _ => false) && !isFormData

/-- The synchronous part of `_request`: resolve the versioned URL
against the configured base (a malformed base throws a `TypeError`),
reject non-https schemes with a `ValidationError` before any network
I/O, serialize the query parameters, and build the request options
with the bearer and client headers, the JSON content-type when a
structured body is present, and the configured timeout. -/
def requestPhase (c : Client) (method : String) (endpoint : String)
    (params : List (String × JsValue)) (extraHeaders : List (String × String))
    (body : Option Json) (isFormData : Bool) : ReqPhase :=
  match resolveUrl ("/api/" ++ API_VERSION ++ endpoint) c.baseUrl with
  | none => ReqPhase.urlThrow
  | some url =>
    if url.protocol ≠ "https:" then
      ReqPhase.thrown (ValidationErrorMk (some (Json.str "Only https baseUrl is supported")) none)
    else
      let qp := serializeParams params
      ReqPhase.sent
        { method := method
          hostname := url.hostname
          path := url.pathname ++ renderSearch qp
          port := if url.portStr = "" then 443 else digitsToNat url.portStr.toList
          headers :=
            [("Authorization", "Bearer " ++ c.apiKey), ("User-Agent", "VoiceAI-SDK/1.1.4")]
              ++ extraHeaders
              ++ (if bodyNeedsJsonHeader body isFormData then
                    [("Content-Type", "application/json")]
                  else [])
          timeoutMs := some c.timeout }

/-- The synchronous part of `_streamRequest`: the same URL resolution
and https-scheme validation as the buffered transport, but the request
path is the bare pathname (no query string is ever serialized), a JSON
content-type is always set, and no timeout entry is present in the
options. -/
def streamRequestPhase (c : Client) (method : String) (endpoint : String)
    (extraHeaders : List (String × String)) : ReqPhase :=
  match resolveUrl ("/api/" ++ API_VERSION ++ endpoint) c.baseUrl with
  | none => ReqPhase.urlThrow
  | some url =>
    if url.protocol ≠ "https:" then
      ReqPhase.thrown (ValidationErrorMk (some (Json.str "Only https baseUrl is supported")) none)
    else
      ReqPhase.sent
        { method := method
          hostname := url.hostname
          path := url.pathname
          port := if url.portStr = "" then 443 else digitsToNat url.portStr.toList
          headers :=
            [("Authorization", "Bearer " ++ c.apiKey),
             ("Content-Type", "application/json"),
             ("User-Agent", "VoiceAI-SDK/1.1.4")]
              ++ extraHeaders
          timeoutMs := none }

/-- Behaviour installed on a request's timeout event: whether the
in-flight request is destroyed and what the promise is rejected with. -/
structure TimeoutBehavior where
  destroysRequest : Bool
  rejectWith : VError

/-- The timeout handler of the buffered transport: destroy the request
and reject with the symbolic-TIMEOUT base-class error. -/
def bufferedOnTimeout : Option TimeoutBehavior :=
  some
    { destroysRequest := true
      rejectWith :=
        VoiceAIErrorMk (some (Json.str "Request timeout")) (ErrCode.sym "TIMEOUT") none }

/-- The streaming transport registers no timeout handler (only an
error handler is installed on the request). -/
def streamOnTimeout : Option TimeoutBehavior := none

/-- Request body assembled by `generateSpeech` / `streamSpeech` from
its options: the text, the optional voice id (dropped from the JSON
serialization when `undefined`), and the documented defaults for
format, temperature, nucleus sampling and language; the `model` field
is `undefined` unless supplied and is then dropped by
`JSON.stringify`. -/
def speechBody (text : Option String) (voiceId : Option String) (model : Option String) : Json :=
  Json.obj
    ([("text", Json.str (text.getD ""))]
      ++ (match voiceId with | some v => [("voice_id", Json.str v)] | none => [])
      ++ [("audio_format", Json.str "mp3"), ("temperature", Json.num 1),
          ("top_p", Json.num (4 / 5 : ℚ))]
      ++ (match model with | some m => [("model", Json.str m)] | none => [])
      ++ [("language", Json.str "en")])

/-- `listVoices`: a GET on the voices collection with `limit`
(default 10), `offset` (default 0) and the optional visibility filter
as query parameters. -/
def listVoicesPhase (c : Client) (limit offset : Option Int) (visibility : Option String) :
    ReqPhase :=
  requestPhase c "GET" "/tts/voices"
    [("limit", JsValue.num (limit.getD 10)), ("offset", JsValue.num (offset.getD 0)),
     ("visibility", match visibility with | none => JsValue.undef | some v => JsValue.str v)]
    [] none false

/-- `getVoice`: a falsy voice id throws a `ValidationError` before the
transport is invoked; otherwise a GET on the voice resource. -/
def getVoicePhase (c : Client) (voiceId : Option String) : ReqPhase :=
  if jsFalsyStr voiceId then
    ReqPhase.thrown (ValidationErrorMk (some (Json.str "Voice ID is required")) none)
  else
    requestPhase c "GET" ("/tts/voice/" ++ voiceId.getD "") [] [] none false

/-- `updateVoice`: a falsy voice id throws a `ValidationError` before
the transport is invoked; otherwise a PATCH with the updates body. -/
def updateVoicePhase (c : Client) (voiceId : Option String) (updates : Json) : ReqPhase :=
  if jsFalsyStr voiceId then
    ReqPhase.thrown (ValidationErrorMk (some (Json.str "Voice ID is required")) none)
  else
    requestPhase c "PATCH" ("/tts/voice/" ++ voiceId.getD "") [] [] (some updates) false

/-- `deleteVoice`: a falsy voice id throws a `ValidationError` before
the transport is invoked; otherwise a DELETE on the voice resource. -/
def deleteVoicePhase (c : Client) (voiceId : Option String) : ReqPhase :=
  if jsFalsyStr voiceId then
    ReqPhase.thrown (ValidationErrorMk (some (Json.str "Voice ID is required")) none)
  else
    requestPhase c "DELETE" ("/tts/voice/" ++ voiceId.getD "") [] [] none false

/-- `generateSpeech`: falsy text throws a `ValidationError` before the
transport is invoked; otherwise a POST of the speech body with the
binary flag set. -/
def generateSpeechPhase (c : Client) (text : Option String) (voiceId : Option String)
    (model : Option String) : ReqPhase :=
  if jsFalsyStr text then
    ReqPhase.thrown (ValidationErrorMk (some (Json.str "Text is required")) none)
  else
    requestPhase c "POST" "/tts/speech" [] [] (some (speechBody text voiceId model)) false

/-- `streamSpeech`: falsy text throws a `ValidationError` before the
streaming transport is invoked; otherwise a POST on the streaming
endpoint (the speech body is written to the socket and plays no part
in the request options). -/
def streamSpeechPhase (c : Client) (text : Option String) : ReqPhase :=
  if jsFalsyStr text then
    ReqPhase.thrown (ValidationErrorMk (some (Json.str "Text is required")) none)
  else
    streamRequestPhase c "POST" "/tts/speech/stream" []

/-- The error branch of `_streamRequest` for status ≥ 400: the body is
fully buffered, then inside a try block it is JSON-parsed and its
`error` member is read, rejecting with a base-class error carrying the
status; a parse failure or a member-access `TypeError` falls to the
catch, which rejects with the literal fallback message and the same
status. -/
def streamErrorReject (parse : String → Option Json) (status : Nat) (bodyText : String) :
    VError :=
  match parse bodyText with
  | some j =>
    match jsGetField j "error" with
    | Except.ok m => VoiceAIErrorMk m (ErrCode.num status) none
    | Except.error _ =>
      VoiceAIErrorMk (some (Json.str "Request failed")) (ErrCode.num status) none
  | none => VoiceAIErrorMk (some (Json.str "Request failed")) (ErrCode.num status) none

/-- Settling of a streaming request once the response status line is
seen: status ≥ 400 buffers the error body and rejects with the
streaming error value; otherwise the promise resolves with the live
stream, whose eventual chunk sequence is supplied by the environment. -/
def streamRequestOutcome (parse : String → Option Json) (status : Nat) (bodyText : String)
    (chunks : List (List Nat)) : Except VError (List (List Nat)) :=
  if 400 ≤ status then Except.error (streamErrorReject parse status bodyText)
  else Except.ok chunks

/-- File-level model of `streamSpeechToFile`: when `streamSpeech`
rejects, the awaited call re-throws before `createWriteStream` is
reached, so no destination file is created and the same error
propagates; when it resolves with a stream that delivers its chunks
and closes cleanly, the file receives their concatenation and the
promise resolves with the output path.  The first component is the
content written to the destination file, `none` meaning it was never
created.  (The completion-order contract of the success path is
modelled separately by `PipeStep`.) -/
def streamSpeechToFileModel (sr : Except VError (List (List Nat))) (outputPath : String) :
    Option (List Nat) × Except VError String :=
  match sr with
  | Except.error e => (none, Except.error e)
  | Except.ok chunks => (some chunks.flatten, Except.ok outputPath)

/-- The value of an awaited `generateSpeech` call: falsy text rejects
with a `ValidationError` before the transport runs; otherwise the
buffered transport's outcome is passed through (with the binary flag
set, a successful outcome is the raw audio byte buffer). -/
def generateSpeechResult (text : Option String) (transport : Except VError (List Nat)) :
    Except VError (List Nat) :=
  if jsFalsyStr text then
    Except.error (ValidationErrorMk (some (Json.str "Text is required")) none)
  else transport

/-- `generateSpeechToFile`: await `generateSpeech`, then one
synchronous whole-buffer `writeFileSync`, then return the output path.
The first component lists the file writes performed, in order. -/
def generateSpeechToFileModel (res : Except VError (List Nat)) (outputPath : String) :
    List (String × List Nat) × Except VError String :=
  match res with
  | Except.error e => ([], Except.error e)
  | Except.ok audio => ([(outputPath, audio)], Except.ok outputPath)

/-- `validateApiKey` applied to the settled outcome of its probe: a
successful probe yields true, a rejection that is an
`AuthenticationError` instance yields false, and any other rejection
is re-thrown unchanged. -/
def validateApiKeyModel (probe : Except VError Json) : Except VError Bool :=
  match probe with
  | Except.ok _ => Except.ok true
  | Except.error e =>
    if e.name = "AuthenticationError" then Except.ok false else Except.error e

/-- The probe request issued by `validateApiKey`: `listVoices` with
limit 1 (offset and visibility left to their defaults). -/
def validateApiKeyProbe (c : Client) : ReqPhase :=
  listVoicesPhase c (some 1) none none

/-- State of the stream-to-file pipeline: chunks the source has not
yet emitted, chunks accepted by the write stream but not yet flushed,
bytes durably flushed to the file, whether the source has ended,
whether the finish event has fired, and the settled value of the
returned promise. -/
structure PipeState where
  pending : List (List Nat)
  buffered : List (List Nat)
  flushed : List Nat
  srcEnded : Bool
  finished : Bool
  resolved : Option String

/-- One event of the `streamSpeechToFile` success-path pipeline,
combining the SDK's wiring (`stream.pipe(writeStream)` and the finish
handler that resolves with the output path) with the Node stream
semantics it relies on: `deliver` forwards the next source chunk to
the write stream in arrival order; `flushStep` flushes the oldest
accepted chunk to storage; `srcEnd` closes the source after its last
chunk, making pipe call `end()`; `finishStep` fires the finish event
only once the source has ended and every accepted chunk is flushed;
`resolveStep` is the registered finish handler resolving the promise
with the output path. -/
inductive PipeStep (outPath : String) : PipeState → PipeState → Prop where
  | deliver (c : List Nat) (cs bs : List (List Nat)) (f : List Nat) (r : Option String) :
      PipeStep outPath ⟨c :: cs, bs, f, false, false, r⟩ ⟨cs, bs ++ [c], f, false, false, r⟩
  | flushStep (p : List (List Nat)) (c : List Nat) (bs : List (List Nat)) (f : List Nat)
      (se : Bool) (r : Option String) :
      PipeStep outPath ⟨p, c :: bs, f, se, false, r⟩ ⟨p, bs, f ++ c, se, false, r⟩
  | srcEnd (bs : List (List Nat)) (f : List Nat) (r : Option String) :
      PipeStep outPath ⟨[], bs, f, false, false, r⟩ ⟨[], bs, f, true, false, r⟩
  | finishStep (f : List Nat) (r : Option String) :
      PipeStep outPath ⟨[], [], f, true, false, r⟩ ⟨[], [], f, true, true, r⟩
  | resolveStep (f : List Nat) :
      PipeStep outPath ⟨[], [], f, true, true, none⟩ ⟨[], [], f, true, true, some outPath⟩

/-- Reflexive-transitive closure of pipeline events. -/
inductive PipeReaches (outPath : String) : PipeState → PipeState → Prop where
  | refl (s : PipeState) : PipeReaches outPath s s
  | tail {s t u : PipeState} :
      PipeReaches outPath s t → PipeStep outPath t u → PipeReaches outPath s u

/-- Initial pipeline state for a response stream that will deliver the
given chunks and then close cleanly. -/
def initPipe (chunks : List (List Nat)) : PipeState :=
  ⟨chunks, [], [], false, false, none⟩

/-- A concrete client configuration used by closed witnesses: the
default production base URL and default timeout. -/
def testClient : Client := { apiKey := "k", baseUrl := BASE_URL, timeout := 60000 }

/-- A parse function that agrees with `JSON.parse` on the literal text
`null` and fails elsewhere; used by closed counterexamples and
witnesses. -/
def jsonNullParse : String → Option Json :=
  fun s => if s = "null" then some Json.null else none

/-- The body text of a 422 error response carrying an error message
and a detail payload (a JSON object literal). -/
def errBody422 : String := "\x7b\"error\":\"bad\",\"detail\":\"oops\"\x7d"

/-- A parse function that agrees with `JSON.parse` on `errBody422`
and fails elsewhere; used by closed witnesses. -/
def sampleErrParse : String → Option Json :=
  fun s =>
    if s = errBody422 then
      some (Json.obj [("error", Json.str "bad"), ("detail", Json.str "oops")])
    else none

/-- Projection: the request path of a dispatched request, `none` when
no request reached the network stage. -/
def ReqPhase.sentPath : ReqPhase → Option String
  | ReqPhase.sent o => some o.path
  | _ => none

/-- Whether a settled buffered request is a rejection carrying a typed
error value. -/
def ReqResult.isReject : ReqResult → Bool
  | ReqResult.reject _ => true
  | _ => false

/-- The status-to-kind mapping exactly as the specification documents
it, written from the spec's words for comparison with the code's
dispatch: 401 AUTHENTICATION, 402 PAYMENT_REQUIRED, 404 NOT_FOUND,
422 VALIDATION, 429 RATE_LIMIT, any other status GENERIC. -/
def specStatusKind (status : Nat) : ErrorKind :=
  if status = 401 then ErrorKind.AUTHENTICATION
  else if status = 402 then ErrorKind.PAYMENT_REQUIRED
  else if status = 404 then ErrorKind.NOT_FOUND
  else if status = 422 then ErrorKind.VALIDATION
  else if status = 429 then ErrorKind.RATE_LIMIT
  else ErrorKind.GENERIC

theorem classifyStatus_kind (status : Nat) (errF detF : Option Json) :
    (classifyStatus status errF detF).kind = specStatusKind status := by
  unfold classifyStatus specStatusKind
  split_ifs <;> rfl

theorem classifyStatus_default (status : Nat) (errF detF : Option Json)
    (h : status ∉ ([401, 402, 404, 422, 429] : List Nat)) :
    classifyStatus status errF detF = VoiceAIErrorMk errF (ErrCode.num status) detF := by
  simp only [List.mem_cons, List.not_mem_nil, or_false, not_or] at h
  obtain ⟨h1, h2, h3, h4, h5⟩ := h
  unfold classifyStatus
  rw [if_neg h1, if_neg h2, if_neg h3, if_neg h4, if_neg h5]

theorem kind_eq_auth_iff (e : VError) :
    e.kind = ErrorKind.AUTHENTICATION ↔ e.name = "AuthenticationError" := by
  unfold VError.kind
  split_ifs with h1 h2 h3 h4 h5 h6 <;> simp_all

theorem specStatusKind_eq_auth_iff (status : Nat) :
    specStatusKind status = ErrorKind.AUTHENTICATION ↔ status = 401 := by
  unfold specStatusKind
  split_ifs <;> simp_all

/-- Core fact shared by the error-path claims: a buffered response
with status ≥ 400 whose body does not parse to JSON `null` is rejected
with the switch-dispatched error built from the parsed body's `error`
and `detail` members. -/
theorem buffered_error_reject (parse : String → Option Json) (binary : Bool)
    (resp : HttpResponse) (h4 : 400 ≤ resp.statusCode)
    (hnn : parse resp.bodyText ≠ some Json.null) :
    ∃ errF detF,
      handleBufferedResponse parse binary resp
        = ReqResult.reject (classifyStatus resp.statusCode errF detF)
      ∧ (∀ fields, parse resp.bodyText = some (Json.obj fields) →
           errF = fields.lookup "error" ∧ detF = fields.lookup "detail") := by
  unfold handleBufferedResponse
  rw [if_pos h4]
  unfold handleErrorResponse
  cases hp : parse resp.bodyText with
  | none =>
    refine ⟨some (Json.str (if resp.bodyText = "" then "Unknown error" else resp.bodyText)),
      none, ?_, ?_⟩
    · rfl
    · intro fields hf
      exact absurd hf (by simp)
  | some j =>
    cases j with
    | null => exact absurd hp hnn
    | obj fields =>
      refine ⟨fields.lookup "error", fields.lookup "detail", rfl, ?_⟩
      intro fs hf
      obtain rfl : fields = fs := by simpa using hf
      exact ⟨rfl, rfl⟩
    | bool b =>
      exact ⟨none, none, rfl, fun fs hf => absurd hf (by simp)⟩
    | num n =>
      exact ⟨none, none, rfl, fun fs hf => absurd hf (by simp)⟩
    | str s =>
      exact ⟨none, none, rfl, fun fs hf => absurd hf (by simp)⟩
    | arr xs =>
      exact ⟨none, none, rfl, fun fs hf => absurd hf (by simp)⟩

theorem serializeParams_go (ps : List (String × JsValue)) (acc : List (String × String)) :
    ps.foldl
      (fun acc kv =>
        if kv.2 ≠ JsValue.undef ∧ kv.2 ≠ JsValue.null then acc ++ [(kv.1, kv.2.asString)]
        else acc)
      acc
      = acc
        ++ (ps.filter fun kv => decide (kv.2 ≠ JsValue.undef ∧ kv.2 ≠ JsValue.null)).map
            (fun kv => (kv.1, kv.2.asString)) := by
  induction ps generalizing acc with
  | nil => simp
  | cons kv rest ih =>
    by_cases h : kv.2 ≠ JsValue.undef ∧ kv.2 ≠ JsValue.null
    · rw [List.foldl_cons, if_pos h, ih, List.filter_cons, if_pos (by simpa using h)]
      simp
    · rw [List.foldl_cons, if_neg h, ih, List.filter_cons, if_neg (by simpa using h)]

/-- C9: serialization into the request URL keeps exactly the
parameters whose value is neither `undefined` nor `null`, in order,
each carrying its stringified value; string values pass through
literally. -/
theorem C9_query_serialization (ps : List (String × JsValue)) :
    serializeParams ps
      = (ps.filter fun kv => decide (kv.2 ≠ JsValue.undef ∧ kv.2 ≠ JsValue.null)).map
          (fun kv => (kv.1, kv.2.asString))
    ∧ ∀ s : String, (JsValue.str s).asString = s := by
  refine ⟨?_, fun s => rfl⟩
  unfold serializeParams
  simpa using serializeParams_go ps []

/-- C5: every local precondition failure is raised synchronously with
its documented kind before any network I/O: a falsy API key makes the
constructor throw an AUTHENTICATION-kind error; a resolvable base
endpoint with a non-https scheme makes the buffered transport throw a
VALIDATION-kind error instead of reaching the network stage; falsy
text in `generateSpeech` or `streamSpeech`, and a falsy voice id in
`getVoice`, `updateVoice` or `deleteVoice`, throw VALIDATION-kind
errors with no request options ever built. -/
theorem C5_local_precondition_errors :
    (∀ key baseUrl t, jsFalsyStr key = true →
       ∃ e, VoiceAI.mkClient key baseUrl t = Except.error e ∧ e.kind = ErrorKind.AUTHENTICATION)
    ∧ (∀ c m ep params hs body fd url,
         resolveUrl ("/api/" ++ API_VERSION ++ ep) c.baseUrl = some url →
         url.protocol ≠ "https:" →
         ∃ e, requestPhase c m ep params hs body fd = ReqPhase.thrown e
           ∧ e.kind = ErrorKind.VALIDATION)
    ∧ (∀ c text v mo, jsFalsyStr text = true →
       ∃ e, generateSpeechPhase c text v mo = ReqPhase.thrown e ∧ e.kind = ErrorKind.VALIDATION)
    ∧ (∀ c text, jsFalsyStr text = true →
       ∃ e, streamSpeechPhase c text = ReqPhase.thrown e ∧ e.kind = ErrorKind.VALIDATION)
    ∧ (∀ c vid, jsFalsyStr vid = true →
       (∃ e, getVoicePhase c vid = ReqPhase.thrown e ∧ e.kind = ErrorKind.VALIDATION)
       ∧ (∀ u, ∃ e, updateVoicePhase c vid u = ReqPhase.thrown e ∧ e.kind = ErrorKind.VALIDATION)
       ∧ (∃ e, deleteVoicePhase c vid = ReqPhase.thrown e ∧ e.kind = ErrorKind.VALIDATION)) := by
  refine ⟨?_, ?_, ?_, ?_, ?_⟩
  · intro key baseUrl t h
    refine ⟨AuthenticationErrorMk (some (Json.str "API key is required")), ?_, rfl⟩
    simp [VoiceAI.mkClient, h]
  · intro c m ep params hs body fd url hurl hproto
    refine ⟨ValidationErrorMk (some (Json.str "Only https baseUrl is supported")) none, ?_, rfl⟩
    unfold requestPhase
    rw [hurl]
    simp [hproto]
  · intro c text v mo h
    refine ⟨ValidationErrorMk (some (Json.str "Text is required")) none, ?_, rfl⟩
    simp [generateSpeechPhase, h]
  · intro c text h
    refine ⟨ValidationErrorMk (some (Json.str "Text is required")) none, ?_, rfl⟩
    simp [streamSpeechPhase, h]
  · intro c vid h
    refine ⟨⟨ValidationErrorMk (some (Json.str "Voice ID is required")) none, ?_, rfl⟩,
      fun u => ⟨ValidationErrorMk (some (Json.str "Voice ID is required")) none, ?_, rfl⟩,
      ⟨ValidationErrorMk (some (Json.str "Voice ID is required")) none, ?_, rfl⟩⟩
    · simp [getVoicePhase, h]
    · simp [updateVoicePhase, h]
    · simp [deleteVoicePhase, h]

/-- C5 witness: the constructor rejects an absent API key with an
AUTHENTICATION-kind error, and a request against an http base endpoint
is thrown as a VALIDATION-kind error before any network stage. -/
theorem C5_local_precondition_errors_witness :
    jsFalsyStr none = true
    ∧ (∃ e, VoiceAI.mkClient none none none = Except.error e
        ∧ e.kind = ErrorKind.AUTHENTICATION)
    ∧ resolveUrl "/api/v1/tts/voices" "http://x"
        = some ⟨"http:", "x", "", "/api/v1/tts/voices"⟩
    ∧ (∃ e, requestPhase ⟨"k", "http://x", 60000⟩ "GET" "/tts/voices" [] [] none false
          = ReqPhase.thrown e ∧ e.kind = ErrorKind.VALIDATION) :=
  ⟨rfl, C5_local_precondition_errors.1 none none none rfl, rfl,
    C5_local_precondition_errors.2.1 ⟨"k", "http://x", 60000⟩ "GET" "/tts/voices" [] [] none false
      ⟨"http:", "x", "", "/api/v1/tts/voices"⟩ rfl (by simp)⟩

/-- C8: validateApiKey yields true exactly on a successful probe,
yields false exactly when the probe rejected with an
AUTHENTICATION-kind error — which the buffered transport produces
exactly for status 401 — and re-throws every other rejection
unchanged; the probe itself is the list-voices request with limit 1. -/
theorem C8_validateApiKey :
    (∀ j, validateApiKeyModel (Except.ok j) = Except.ok true)
    ∧ (∀ e, validateApiKeyModel (Except.error e) = Except.ok false
        ↔ e.kind = ErrorKind.AUTHENTICATION)
    ∧ (∀ e, e.kind ≠ ErrorKind.AUTHENTICATION →
        validateApiKeyModel (Except.error e) = Except.error e)
    ∧ (∀ parse resp, 400 ≤ resp.statusCode → parse resp.bodyText ≠ some Json.null →
        ∃ e, handleBufferedResponse parse false resp = ReqResult.reject e
          ∧ (e.kind = ErrorKind.AUTHENTICATION ↔ resp.statusCode = 401))
    ∧ (validateApiKeyProbe testClient).sentPath = some "/api/v1/tts/voices?limit=1&offset=0" := by
  refine ⟨fun j => rfl, ?_, ?_, ?_, rfl⟩
  · intro e
    rw [kind_eq_auth_iff]
    unfold validateApiKeyModel
    by_cases h : e.name = "AuthenticationError"
    · simp [h]
    · simp [h]
  · intro e h
    simp only [ne_eq, kind_eq_auth_iff] at h
    simp [validateApiKeyModel, h]
  · intro parse resp h4 hnn
    obtain ⟨errF, detF, heq, -⟩ := buffered_error_reject parse false resp h4 hnn
    refine ⟨_, heq, ?_⟩
    rw [classifyStatus_kind, specStatusKind_eq_auth_iff]

/-- C8 witness: a success yields true, a concrete 401-produced
authentication error yields false, and a concrete generic 500 error is
re-thrown unchanged. -/
theorem C8_validateApiKey_witness :
    validateApiKeyModel (Except.ok Json.null) = Except.ok true
    ∧ validateApiKeyModel (Except.error (AuthenticationErrorMk none)) = Except.ok false
    ∧ (VoiceAIErrorMk (some (Json.str "boom")) (ErrCode.num 500) none).kind
        ≠ ErrorKind.AUTHENTICATION
    ∧ validateApiKeyModel
        (Except.error (VoiceAIErrorMk (some (Json.str "boom")) (ErrCode.num 500) none))
        = Except.error (VoiceAIErrorMk (some (Json.str "boom")) (ErrCode.num 500) none) := by
  have hne : (VoiceAIErrorMk (some (Json.str "boom")) (ErrCode.num 500) none).kind
      ≠ ErrorKind.AUTHENTICATION := by decide
  exact ⟨C8_validateApiKey.1 Json.null, (C8_validateApiKey.2.1 _).mpr rfl, hne,
    C8_validateApiKey.2.2.1 _ hne⟩

/-- C10: generateSpeechToFile is atomic in the destination file: when
the awaited generateSpeech call fails with any error the output path
is never written, and on success the file is written exactly once with
the complete returned buffer before the promise resolves with the
output path. -/
theorem C10_generateSpeechToFile_atomic (text : Option String)
    (transport : Except VError (List Nat)) (outputPath : String) :
    (∀ e, generateSpeechResult text transport = Except.error e →
       generateSpeechToFileModel (generateSpeechResult text transport) outputPath
         = ([], Except.error e))
    ∧ (∀ audio, generateSpeechResult text transport = Except.ok audio →
       generateSpeechToFileModel (generateSpeechResult text transport) outputPath
         = ([(outputPath, audio)], Except.ok outputPath)) := by
  constructor
  · intro e h
    rw [h]
    rfl
  · intro audio h
    rw [h]
    rfl

/-- C10 witness: a validation failure writes nothing, a successful
two-byte buffer is written exactly once and the path is returned. -/
theorem C10_generateSpeechToFile_atomic_witness :
    generateSpeechResult (some "hi") (Except.ok [1, 2]) = Except.ok [1, 2]
    ∧ generateSpeechToFileModel (generateSpeechResult (some "hi") (Except.ok [1, 2])) "out.mp3"
        = ([("out.mp3", [1, 2])], Except.ok "out.mp3")
    ∧ generateSpeechResult none (Except.ok [1, 2])
        = Except.error (ValidationErrorMk (some (Json.str "Text is required")) none)
    ∧ generateSpeechToFileModel (generateSpeechResult none (Except.ok [1, 2])) "out.mp3"
        = ([], Except.error (ValidationErrorMk (some (Json.str "Text is required")) none)) := by
  refine ⟨rfl, (C10_generateSpeechToFile_atomic (some "hi") (Except.ok [1, 2]) "out.mp3").2
    [1, 2] rfl, rfl, (C10_generateSpeechToFile_atomic none (Except.ok [1, 2]) "out.mp3").1
    _ rfl⟩

/-- C2: for a buffered response with status < 400, an audio content
type or the caller's binary flag yields exactly the received byte
buffer with a result independent of the JSON parser (no decoding is
attempted); otherwise a parsable body resolves to the parsed
structure and an unparsable one resolves to the raw body text, never
crashing on parse failure. -/
theorem C2_buffered_success (parse : String → Option Json) (binary : Bool)
    (resp : HttpResponse) (hlt : resp.statusCode < 400) :
    (strStartsWith (resp.contentType.getD "") "audio/" = true ∨ binary = true →
       handleBufferedResponse parse binary resp = ReqResult.resolve (Outcome.bytes resp.bodyBytes)
       ∧ ∀ parse₂, handleBufferedResponse parse₂ binary resp
           = handleBufferedResponse parse binary resp)
    ∧ (¬(strStartsWith (resp.contentType.getD "") "audio/" = true ∨ binary = true) →
       (∀ j, parse resp.bodyText = some j →
          handleBufferedResponse parse binary resp = ReqResult.resolve (Outcome.json j))
       ∧ (parse resp.bodyText = none →
          handleBufferedResponse parse binary resp = ReqResult.resolve (Outcome.text resp.bodyText))) := by
  have h4 : ¬ (400 ≤ resp.statusCode) := by omega
  constructor
  · intro hb
    have hcond : (strStartsWith (resp.contentType.getD "") "audio/" || binary) = true := by
      rcases hb with h | h <;> simp [h]
    constructor
    · unfold handleBufferedResponse
      rw [if_neg h4]
      simp [hcond]
    · intro parse₂
      unfold handleBufferedResponse
      simp only [if_neg h4]
      simp [hcond]
  · intro hb
    push_neg at hb
    obtain ⟨h1, h2⟩ := hb
    simp only [ne_eq, Bool.not_eq_true] at h1 h2
    have hcond : (strStartsWith (resp.contentType.getD "") "audio/" || binary) = false := by
      simp [h1, h2]
    constructor
    · intro j hj
      unfold handleBufferedResponse
      rw [if_neg h4]
      simp [hcond, hj]
    · intro hn
      unfold handleBufferedResponse
      rw [if_neg h4]
      simp [hcond, hn]

/-- C2 witness: an audio/mpeg 200 response yields the exact bytes, a
valid-JSON 200 response yields the parsed value, and an unparsable 200
response yields the raw text. -/
theorem C2_buffered_success_witness :
    (200 : Nat) < 400
    ∧ handleBufferedResponse jsonNullParse true ⟨200, some "audio/mpeg", [7, 8], "x"⟩
        = ReqResult.resolve (Outcome.bytes [7, 8])
    ∧ handleBufferedResponse jsonNullParse false ⟨200, none, [], "null"⟩
        = ReqResult.resolve (Outcome.json Json.null)
    ∧ handleBufferedResponse jsonNullParse false ⟨200, none, [], "x"⟩
        = ReqResult.resolve (Outcome.text "x") := by
  refine ⟨by norm_num,
    ((C2_buffered_success jsonNullParse true ⟨200, some "audio/mpeg", [7, 8], "x"⟩
      (by norm_num)).1 (Or.inr rfl)).1, ?_, ?_⟩
  · exact ((C2_buffered_success jsonNullParse false ⟨200, none, [], "null"⟩
      (by norm_num)).2 (by decide)).1 Json.null rfl
  · exact ((C2_buffered_success jsonNullParse false ⟨200, none, [], "x"⟩
      (by norm_num)).2 (by decide)).2 rfl

/-- C1 (amended): for every buffered response with status ≥ 400 whose
body does not parse to JSON null, the transport rejects with exactly
one typed error whose kind is determined by the status code via the
documented mapping (401 AUTHENTICATION, 402 PAYMENT_REQUIRED,
404 NOT_FOUND, 422 VALIDATION, 429 RATE_LIMIT, any other status
GENERIC); for 422 the details field equals the server-supplied detail
payload, and for any unlisted status the error carries the literal
numeric status code together with the detail payload.  The amendment
excludes bodies parsing to JSON null, where the end handler throws
instead of rejecting: see the counterexample. -/
theorem C1_buffered_error_taxonomy (parse : String → Option Json) (binary : Bool)
    (resp : HttpResponse) (h4 : 400 ≤ resp.statusCode)
    (hnn : parse resp.bodyText ≠ some Json.null) :
    ∃ e, handleBufferedResponse parse binary resp = ReqResult.reject e
      ∧ e.kind = specStatusKind resp.statusCode
      ∧ (∀ fields d, resp.statusCode = 422 →
           parse resp.bodyText = some (Json.obj fields) →
           fields.lookup "detail" = some d → e.details = d)
      ∧ (resp.statusCode ∉ ([401, 402, 404, 422, 429] : List Nat) →
           e.code = ErrCode.num resp.statusCode
           ∧ ∀ fields d, parse resp.bodyText = some (Json.obj fields) →
               fields.lookup "detail" = some d → e.details = d) := by
  obtain ⟨errF, detF, heq, hfields⟩ := buffered_error_reject parse binary resp h4 hnn
  refine ⟨_, heq, classifyStatus_kind _ _ _, ?_, ?_⟩
  · intro fields d h422 hp hd
    obtain ⟨-, hdet⟩ := hfields fields hp
    rw [h422, hdet, hd]
    rfl
  · intro hnotin
    rw [classifyStatus_default _ _ _ hnotin]
    refine ⟨rfl, ?_⟩
    intro fields d hp hd
    obtain ⟨-, hdet⟩ := hfields fields hp
    rw [hdet, hd]
    rfl

/-- C1 counterexample: a 401 response whose body is the valid JSON
text null (so JSON.parse succeeds and returns null) makes the switch
branch read a member of null; the end handler throws an uncaught
TypeError, the promise never settles, and the transport does not
reject with a typed error, contrary to the claim as stated. -/
theorem C1_null_body_counterexample :
    handleBufferedResponse jsonNullParse false ⟨401, none, [110, 117, 108, 108], "null"⟩
      = ReqResult.crash "TypeError: cannot read properties of null"
    ∧ (handleBufferedResponse jsonNullParse false
        ⟨401, none, [110, 117, 108, 108], "null"⟩).isReject = false :=
  ⟨rfl, rfl⟩

/-- C1 witness: a 422 response with a JSON body carrying error and
detail members rejects with a VALIDATION-kind error whose details
equal the server-supplied payload. -/
theorem C1_buffered_error_taxonomy_witness :
    (400 : Nat) ≤ 422
    ∧ sampleErrParse errBody422 ≠ some Json.null
    ∧ ∃ e, handleBufferedResponse sampleErrParse false ⟨422, none, [], errBody422⟩
          = ReqResult.reject e
        ∧ e.kind = specStatusKind 422
        ∧ (∀ fields d, (422 : Nat) = 422 →
             sampleErrParse errBody422 = some (Json.obj fields) →
             fields.lookup "detail" = some d → e.details = d)
        ∧ ((422 : Nat) ∉ ([401, 402, 404, 422, 429] : List Nat) →
             e.code = ErrCode.num 422
             ∧ ∀ fields d, sampleErrParse errBody422 = some (Json.obj fields) →
                 fields.lookup "detail" = some d → e.details = d) := by
  have hnn : sampleErrParse errBody422 ≠ some Json.null := by
    simp [sampleErrParse]
  exact ⟨by norm_num, hnn,
    C1_buffered_error_taxonomy sampleErrParse false ⟨422, none, [], errBody422⟩
      (by norm_num) hnn⟩

/-- C4: for every streaming request answered with status ≥ 400,
streamSpeechToFile rejects with a GENERIC-kind error carrying the
literal status code (with the message defaulting to Request failed
when the buffered error body fails to parse as JSON) and never
creates or writes the destination file. -/
theorem C4_stream_error_no_file (parse : String → Option Json) (status : Nat)
    (bodyText : String) (chunks : List (List Nat)) (outputPath : String)
    (h4 : 400 ≤ status) :
    ∃ e, streamSpeechToFileModel (streamRequestOutcome parse status bodyText chunks) outputPath
        = (none, Except.error e)
      ∧ e.kind = ErrorKind.GENERIC
      ∧ e.code = ErrCode.num status
      ∧ (parse bodyText = none → e.message = "Request failed") := by
  refine ⟨streamErrorReject parse status bodyText, ?_, ?_, ?_, ?_⟩
  · unfold streamRequestOutcome
    rw [if_pos h4]
    rfl
  · unfold streamErrorReject
    cases hp : parse bodyText with
    | none => rfl
    | some j => cases j <;> rfl
  · unfold streamErrorReject
    cases hp : parse bodyText with
    | none => rfl
    | some j => cases j <;> rfl
  · intro hp
    unfold streamErrorReject
    rw [hp]
    simp [VoiceAIErrorMk, errMsgNoDefault, jsToString]

/-- C4 witness: a 500-status streaming response with an unparsable
body rejects with a GENERIC error carrying code 500 and the fallback
message, and no file content is produced. -/
theorem C4_stream_error_no_file_witness :
    (400 : Nat) ≤ 500
    ∧ jsonNullParse "oops" = none
    ∧ ∃ e, streamSpeechToFileModel (streamRequestOutcome jsonNullParse 500 "oops" [[1]]) "o.mp3"
          = (none, Except.error e)
        ∧ e.kind = ErrorKind.GENERIC
        ∧ e.code = ErrCode.num 500
        ∧ (jsonNullParse "oops" = none → e.message = "Request failed") :=
  ⟨by norm_num, rfl,
    C4_stream_error_no_file jsonNullParse 500 "oops" [[1]] "o.mp3" (by norm_num)⟩

/-- C6 (amended): the buffered transport attaches the configured
timeout (defaulting to 60000 ms when the option is absent) to every
dispatched request and installs a timeout handler that destroys the
in-flight request and rejects with a TIMEOUT-kind error, a kind
distinct from the GENERIC kind of other transport failures; the
streaming transport attaches no timeout entry and installs no timeout
handler, so streaming operations never abort on the configured
duration.  The amendment restricts the claimed timeout behaviour to
the buffered transport: see the counterexample. -/
theorem C6_timeout_buffered_only :
    (∀ key baseUrl c, VoiceAI.mkClient key baseUrl none = Except.ok c → c.timeout = 60000)
    ∧ (∀ c m ep params hs body fd o,
         requestPhase c m ep params hs body fd = ReqPhase.sent o →
         o.timeoutMs = some c.timeout)
    ∧ (∃ tb, bufferedOnTimeout = some tb ∧ tb.destroysRequest = true
        ∧ tb.rejectWith.kind = ErrorKind.TIMEOUT)
    ∧ ErrorKind.TIMEOUT ≠ ErrorKind.GENERIC
    ∧ (∀ c m ep hs o, streamRequestPhase c m ep hs = ReqPhase.sent o → o.timeoutMs = none)
    ∧ streamOnTimeout = none := by
  refine ⟨?_, ?_, ⟨_, rfl, rfl, rfl⟩, by decide, ?_, rfl⟩
  · intro key baseUrl c h
    unfold VoiceAI.mkClient at h
    by_cases hk : jsFalsyStr key = true
    · rw [if_pos hk] at h
      cases h
    · rw [if_neg hk] at h
      cases h
      rfl
  · intro c m ep params hs body fd o h
    unfold requestPhase at h
    split at h
    · cases h
    · split at h
      · cases h
      · cases h
        rfl
  · intro c m ep hs o h
    unfold streamRequestPhase at h
    split at h
    · cases h
    · split at h
      · cases h
      · cases h
        rfl

/-- C6 counterexample: the streaming request dispatched by the
streaming transport for the stream-speech endpoint carries no timeout
entry in its https.request options and no timeout handler is
registered on it, so no streaming operation can abort on the
configured timeout or surface a TIMEOUT error, contrary to the
claim's extension of the timeout contract to the streaming transport. -/
theorem C6_stream_no_timeout_counterexample :
    streamRequestPhase testClient "POST" "/tts/speech/stream" []
      = ReqPhase.sent
          { method := "POST", hostname := "dev.voice.ai", path := "/api/v1/tts/speech/stream"
            port := 443
            headers := [("Authorization", "Bearer k"), ("Content-Type", "application/json"),
              ("User-Agent", "VoiceAI-SDK/1.1.4")]
            timeoutMs := none }
    ∧ streamOnTimeout = none
    ∧ bufferedOnTimeout ≠ none :=
  ⟨rfl, rfl, by simp [bufferedOnTimeout]⟩

/-- C6 witness: the default-constructed client has the 60000 ms
default timeout and its buffered requests carry it in their options. -/
theorem C6_timeout_buffered_only_witness :
    VoiceAI.mkClient (some "k") none none = Except.ok testClient
    ∧ testClient.timeout = 60000
    ∧ ({ method := "GET", hostname := "dev.voice.ai", path := "/api/v1/tts/voices"
         port := 443
         headers := [("Authorization", "Bearer k"), ("User-Agent", "VoiceAI-SDK/1.1.4")]
         timeoutMs := some 60000 } : NodeRequestOptions).timeoutMs = some testClient.timeout := by
  refine ⟨rfl, C6_timeout_buffered_only.1 (some "k") none testClient rfl, ?_⟩
  exact C6_timeout_buffered_only.2.1 testClient "GET" "/tts/voices" [] [] none false _ rfl

/-- C7 (amended): the streaming transport performs the same URL
resolution and https-scheme validation as the buffered transport,
failing identically, and dispatches to the same host and port with the
same versioned pathname; it serializes no query parameters (its
request path is the bare pathname), so the full request URLs agree
exactly when no query parameters survive serialization.  The
amendment drops the query string from the claimed URL equality: see
the counterexample. -/
theorem C7_stream_buffered_url (c : Client) (m ep : String)
    (params : List (String × JsValue)) (hs hs₂ : List (String × String))
    (body : Option Json) (fd : Bool) :
    (requestPhase c m ep params hs body fd = ReqPhase.urlThrow
       ↔ streamRequestPhase c m ep hs₂ = ReqPhase.urlThrow)
    ∧ (∀ e, requestPhase c m ep params hs body fd = ReqPhase.thrown e
       ↔ streamRequestPhase c m ep hs₂ = ReqPhase.thrown e)
    ∧ (∀ ob os, requestPhase c m ep params hs body fd = ReqPhase.sent ob →
         streamRequestPhase c m ep hs₂ = ReqPhase.sent os →
         os.hostname = ob.hostname ∧ os.port = ob.port
         ∧ ob.path = os.path ++ renderSearch (serializeParams params)
         ∧ (serializeParams params = [] → ob.path = os.path)) := by
  unfold requestPhase streamRequestPhase
  cases hu : resolveUrl ("/api/" ++ API_VERSION ++ ep) c.baseUrl with
  | none =>
    exact ⟨by simp, fun e => by simp, fun ob os h1 h2 => nomatch h1⟩
  | some url =>
    by_cases hp : url.protocol ≠ "https:"
    · simp only [if_pos hp]
      exact ⟨by simp, fun e => by simp, fun ob os h1 h2 => nomatch h1⟩
    · simp only [if_neg hp]
      refine ⟨by constructor <;> (intro h; cases h), ?_, ?_⟩
      · intro e
        constructor <;> (intro h; cases h)
      · intro ob os h1 h2
        cases h1
        cases h2
        refine ⟨rfl, rfl, rfl, ?_⟩
        intro hq
        show url.pathname ++ renderSearch (serializeParams params) = url.pathname
        rw [hq]
        unfold renderSearch
        rw [if_pos rfl]
        exact String.append_empty url.pathname

/-- C7 counterexample: with one query parameter the buffered transport
dispatches a request whose path carries the serialized query string
while the streaming transport for the same method and endpoint
dispatches the bare pathname, so the constructed full request URLs
differ. -/
theorem C7_query_divergence_counterexample :
    (requestPhase testClient "GET" "/tts/voices" [("limit", JsValue.num 1)] [] none
        false).sentPath
      = some "/api/v1/tts/voices?limit=1"
    ∧ (streamRequestPhase testClient "GET" "/tts/voices" []).sentPath
      = some "/api/v1/tts/voices"
    ∧ ("/api/v1/tts/voices?limit=1" : String) ≠ "/api/v1/tts/voices" :=
  ⟨rfl, rfl, by decide⟩

/-- C7 witness: for the voices endpoint with no parameters the two
transports dispatch to the same host and port and the same path. -/
theorem C7_stream_buffered_url_witness :
    ("dev.voice.ai" : String) = "dev.voice.ai"
    ∧ (443 : Nat) = 443
    ∧ ("/api/v1/tts/voices" : String)
        = "/api/v1/tts/voices" ++ renderSearch (serializeParams [])
    ∧ (serializeParams ([] : List (String × JsValue)) = [] →
        ("/api/v1/tts/voices" : String) = "/api/v1/tts/voices") :=
  (C7_stream_buffered_url testClient "GET" "/tts/voices" [] [] [] none false).2.2
    { method := "GET", hostname := "dev.voice.ai", path := "/api/v1/tts/voices", port := 443
      headers := [("Authorization", "Bearer k"), ("User-Agent", "VoiceAI-SDK/1.1.4")]
      timeoutMs := some 60000 }
    { method := "GET", hostname := "dev.voice.ai", path := "/api/v1/tts/voices", port := 443
      headers := [("Authorization", "Bearer k"), ("Content-Type", "application/json"),
        ("User-Agent", "VoiceAI-SDK/1.1.4")]
      timeoutMs := none }
    rfl rfl

/-- Invariant of the stream-to-file pipeline reachable from the
initial state: byte conservation (flushed, accepted-unflushed and
undelivered bytes together are exactly the response chunks in order),
a fired finish event implies everything was accepted and flushed, and
a resolved promise carries the output path and implies the finish
event fired. -/
theorem pipe_invariant {outPath : String} {chunks : List (List Nat)} {s : PipeState}
    (h : PipeReaches outPath (initPipe chunks) s) :
    s.flushed ++ s.buffered.flatten ++ s.pending.flatten = chunks.flatten
    ∧ (s.finished = true → s.buffered = [] ∧ s.pending = [])
    ∧ (∀ p, s.resolved = some p → p = outPath ∧ s.finished = true) := by
  induction h with
  | refl => simp [initPipe]
  | tail hr hstep ih =>
    obtain ⟨hbytes, hfin, hres⟩ := ih
    cases hstep with
    | deliver c cs bs f r =>
      refine ⟨?_, by simp, ?_⟩
      · simp only [List.flatten_append, List.flatten_cons] at hbytes ⊢
        rw [← hbytes]
        simp [List.append_assoc]
      · intro p hp
        exact absurd (hres p hp).2 (by simp)
    | flushStep pnd c bs f se r =>
      refine ⟨?_, by simp, ?_⟩
      · simp only [List.flatten_cons] at hbytes ⊢
        rw [← hbytes]
        simp [List.append_assoc]
      · intro p hp
        exact absurd (hres p hp).2 (by simp)
    | srcEnd bs f r =>
      refine ⟨hbytes, by simp, ?_⟩
      · intro p hp
        exact absurd (hres p hp).2 (by simp)
    | finishStep f r =>
      refine ⟨hbytes, fun _ => ⟨rfl, rfl⟩, ?_⟩
      · intro p hp
        exact absurd (hres p hp).2 (by simp)
    | resolveStep f =>
      refine ⟨hbytes, fun _ => ⟨rfl, rfl⟩, ?_⟩
      · intro p hp
        have : outPath = p := by injection hp
        exact ⟨this.symm, rfl⟩

/-- C3: whenever the stream-to-file pipeline reaches a state in which
the returned promise has resolved, it resolved with the output path,
the file sink's finish event (all accepted bytes flushed) had already
fired, and the destination file holds exactly the concatenation of the
delivered chunks in arrival order. -/
theorem C3_streamToFile_complete (chunks : List (List Nat)) (outPath : String)
    (s : PipeState) (p : String) (hr : PipeReaches outPath (initPipe chunks) s)
    (hres : s.resolved = some p) :
    p = outPath ∧ s.flushed = chunks.flatten ∧ s.finished = true := by
  obtain ⟨hbytes, hfin, hresv⟩ := pipe_invariant hr
  obtain ⟨hp, hfin2⟩ := hresv p hres
  obtain ⟨hb, hpend⟩ := hfin hfin2
  refine ⟨hp, ?_, hfin2⟩
  rw [hb, hpend] at hbytes
  simpa using hbytes

/-- C3 witness: a concrete run delivering two chunks, flushing both,
ending, finishing and resolving reaches a resolved state whose file
content is the concatenation of the chunks. -/
theorem C3_streamToFile_complete_witness :
    (PipeState.mk [] [] [1, 2, 3] true true (some "out.mp3")).resolved = some "out.mp3"
    ∧ ("out.mp3" : String) = "out.mp3"
    ∧ (PipeState.mk [] [] [1, 2, 3] true true (some "out.mp3")).flushed
        = ([[1, 2], [3]] : List (List Nat)).flatten
    ∧ (PipeState.mk [] [] [1, 2, 3] true true (some "out.mp3")).finished = true := by
  have r0 : PipeReaches "out.mp3" (initPipe [[1, 2], [3]]) (initPipe [[1, 2], [3]]) :=
    PipeReaches.refl _
  have r1 := PipeReaches.tail r0 (PipeStep.deliver [1, 2] [[3]] [] [] none)
  have r2 := PipeReaches.tail r1 (PipeStep.deliver [3] [] [[1, 2]] [] none)
  have r3 := PipeReaches.tail r2 (PipeStep.flushStep [] [1, 2] [[3]] [] false none)
  have r4 := PipeReaches.tail r3 (PipeStep.flushStep [] [3] [] [1, 2] false none)
  have r5 := PipeReaches.tail r4 (PipeStep.srcEnd [] [1, 2, 3] none)
  have r6 := PipeReaches.tail r5 (PipeStep.finishStep [1, 2, 3] none)
  have run := PipeReaches.tail r6 (PipeStep.resolveStep [1, 2, 3])
  exact ⟨rfl,
    C3_streamToFile_complete [[1, 2], [3]] "out.mp3"
      (PipeState.mk [] [] [1, 2, 3] true true (some "out.mp3")) "out.mp3" run rfl⟩
